import Mathlib

set_option autoImplicit false

/-!
Verification development for PyLungViewer.

This file gives a shallow embedding of the segmentation engine
(`pylungviewer/core/segmentation.py`) and of the mask/display state logic of
the viewer panel (`pylungviewer/gui/viewer_panel.py`), together with theorems
checking the behavioural claims of the specification against that code.

Modelling conventions:
* `numpy` arrays are modelled with explicit shape fields and total indexing
  functions (reads outside the stored shape return junk that is never relied
  upon, exactly like the code never reads out of bounds);
* Hounsfield intensities and interpolation arithmetic are modelled over `ℚ`
  (the claims under study do not depend on floating-point rounding);
* the PyTorch model is an opaque function from a preprocessed 256x256 input
  to per-pixel logits; runtime exceptions raised during inference, which
  `predict` catches and turns into `None`, are modelled by letting the
  forward pass return `Option`;
* Qt signal plumbing, logging and progress dialogs carry no mask state and
  are omitted; every state-bearing statement of the python methods is
  translated in source order.
-/

namespace PyLungViewer

/-- `IMG_SIZE = 256` (segmentation.py, module constant): the fixed square
resolution the model consumes and produces. -/
def IMG_SIZE : Nat := 256

/-- `WINDOW_LEVEL = -600` (segmentation.py, module constant). -/
def WINDOW_LEVEL : ℚ := -600

/-- `WINDOW_WIDTH = 1500` (segmentation.py, module constant). -/
def WINDOW_WIDTH : ℚ := 1500

/-- A `numpy` array as `predict` receives it: a dynamic shape (so that the
`ndim != 2` guard is expressible) plus a 2-D accessor for the only rank the
code ever reads element-wise. -/
structure PyArray where
  shape : List Nat
  item : Nat → Nat → ℚ

/-- A 2-D binary mask (`np.uint8` array) with its shape, as returned by
`LungSegmenter.predict`. -/
structure Mask2 where
  rows : Nat
  cols : Nat
  pix : Nat → Nat → ℕ

/-- A 3-D HU volume of shape `[Z, H, W]` (`volume_hu` in the code). -/
structure Volume3 where
  depth : Nat
  rows : Nat
  cols : Nat
  vox : Nat → Nat → Nat → ℚ

/-- A 3-D mask volume of shape `[Z, H, W]` (`volume_mask` in the code). -/
structure Mask3 where
  depth : Nat
  rows : Nat
  cols : Nat
  pix : Nat → Nat → Nat → ℕ

/-- `volume_hu[i]`: the i-th 2-D slice of a 3-D volume. -/
def Volume3.sliceAt (vol : Volume3) (i : Nat) : PyArray :=
  ⟨[vol.rows, vol.cols], fun r c => vol.vox i r c⟩

/-- `np.clip(x, lo, hi)` for `lo ≤ hi`. -/
def clip (x lo hi : ℚ) : ℚ := min (max x lo) hi

/-- Clamp a (possibly negative) source coordinate into `[0, n-1]`, the border
replication `cv2.resize` applies at image edges. -/
def clampIdx (z : ℤ) (n : Nat) : Nat := min z.toNat (n - 1)

/-- `cv2.resize(img, (dstW, dstH), interpolation=cv2.INTER_LINEAR)`:
bilinear interpolation with the half-pixel coordinate convention
`fx = (dst + 0.5) * src/dst - 0.5` and edge clamping. -/
def resizeLinear (pix : Nat → Nat → ℚ) (srcH srcW dstH dstW : Nat) :
    Nat → Nat → ℚ := fun r c =>
  let fy : ℚ := ((r : ℚ) + 1/2) * (srcH : ℚ) / (dstH : ℚ) - 1/2
  let fx : ℚ := ((c : ℚ) + 1/2) * (srcW : ℚ) / (dstW : ℚ) - 1/2
  let sy : ℤ := Int.floor fy
  let sx : ℤ := Int.floor fx
  let v : ℚ := fy - (sy : ℚ)
  let u : ℚ := fx - (sx : ℚ)
  let p : ℤ → ℤ → ℚ := fun yy xx => pix (clampIdx yy srcH) (clampIdx xx srcW)
  (1 - v) * ((1 - u) * p sy sx + u * p sy (sx + 1)) +
    v * ((1 - u) * p (sy + 1) sx + u * p (sy + 1) (sx + 1))

/-- `cv2.resize(mask, (dstW, dstH), interpolation=cv2.INTER_NEAREST)`: each
destination pixel is copied from the source pixel at
`floor(dst * src/dst)`, clamped into range; no new values are created. -/
def resizeNearest (pix : Nat → Nat → ℕ) (srcH srcW dstH dstW : Nat) :
    Nat → Nat → ℕ := fun r c =>
  pix (min (r * srcH / dstH) (srcH - 1)) (min (c * srcW / dstW) (srcW - 1))

/-- The loaded network (`smp.Unet` instance in eval mode). `forward` maps the
preprocessed 256x256 input to per-pixel logits; a `none` result models a
runtime exception during `self.model(input_tensor)` (or the preprocessing
steps inside the same `try`), which `predict` catches and converts to a
`None` return. -/
structure TorchModel where
  forward : (Nat → Nat → ℚ) → Option (Nat → Nat → ℚ)

/-- The environment-determined outcome of one `load_model(model_path)` call:
the file may be missing (`os.path.exists` is false), the
`segmentation_models_pytorch` import may fail, deserialization /
`load_state_dict` may raise, or loading succeeds with a usable model.
All three failure shapes are caught inside `load_model` in the code. -/
inductive LoadOutcome where
  | fileMissing
  | importFailed
  | loadFailed
  | ok (m : TorchModel)

/-- The mutable state of a `LungSegmenter` instance (segmentation.py lines
47-51; the torch `device` and signal helper carry no mask state). -/
structure LungSegmenter where
  model : Option TorchModel
  model_path : Option String
  _is_cancelled : Bool

/-- `LungSegmenter.load_model` (segmentation.py lines 57-100): a missing
file, a failed library load and any deserialization exception all null out
`self.model` and `self.model_path` and return `False`; success installs the
model and returns `True`. Every failure path is a `return False`, never a
raise. -/
def LungSegmenter.load_model (seg : LungSegmenter) (model_path : String)
    (outcome : LoadOutcome) : LungSegmenter × Bool :=
  match outcome with
  | LoadOutcome.fileMissing => ({ seg with model := none, model_path := none }, false)
  | LoadOutcome.importFailed => ({ seg with model := none, model_path := none }, false)
  | LoadOutcome.loadFailed => ({ seg with model := none, model_path := none }, false)
  | LoadOutcome.ok m => ({ seg with model := some m, model_path := some model_path }, true)

/-- `LungSegmenter._preprocess_slice` (segmentation.py lines 102-154) on a
2-D slice of shape `(h, w)`: lung-window clip to
`[WINDOW_LEVEL - WINDOW_WIDTH/2, WINDOW_LEVEL + WINDOW_WIDTH/2]`, normalize
into `[0,1]` (with a second clip), then bilinear resize to
`IMG_SIZE x IMG_SIZE`. Tensor packaging (unsqueeze to `[1,1,256,256]`) and
device transfer do not change pixel values and are dropped. -/
def LungSegmenter._preprocess_slice (item : Nat → Nat → ℚ) (h w : Nat) :
    Nat → Nat → ℚ :=
  let min_val := WINDOW_LEVEL - WINDOW_WIDTH / 2
  let max_val := WINDOW_LEVEL + WINDOW_WIDTH / 2
  let width := if WINDOW_WIDTH = 0 then 1 else WINDOW_WIDTH
  let slice_windowed : Nat → Nat → ℚ := fun r c => clip (item r c) min_val max_val
  let slice_normalized : Nat → Nat → ℚ :=
    fun r c => clip ((slice_windowed r c - min_val) / width) 0 1
  resizeLinear slice_normalized h w IMG_SIZE IMG_SIZE

/-- `LungSegmenter.predict` (segmentation.py lines 156-207): guards (no
model, `None` input, `ndim != 2`) each return `None` before any inference;
then preprocess, forward pass (whose runtime failure yields `None` through
the `except` clause), threshold the logits at 0 into a `{0,1}` `uint8` map at
256x256, and nearest-neighbour resize back to the original `(h, w)`. -/
def LungSegmenter.predict (seg : LungSegmenter) (slice_hu : Option PyArray) :
    Option Mask2 :=
  match seg.model with
  | none => none
  | some model =>
    match slice_hu with
    | none => none
    | some a =>
      match a.shape with
      | [h, w] =>
        let input_tensor := LungSegmenter._preprocess_slice a.item h w
        match model.forward input_tensor with
        | none => none
        | some output_logits =>
          let predicted_mask : Nat → Nat → ℕ :=
            fun r c => if 0 < output_logits r c then 1 else 0
          some ⟨h, w, resizeNearest predicted_mask IMG_SIZE IMG_SIZE h w⟩
      | _ => none

/-- Value of the `is_cancelled` callback at loop iteration `i`
(`if is_cancelled and is_cancelled():` — a `None` callback makes the whole
conjunction falsy, so the check is skipped). The callback reads mutable
worker state; it is embedded as a function of the iteration index. -/
def cbVal (is_cancelled : Option (Nat → Bool)) (i : Nat) : Bool :=
  match is_cancelled with
  | some f => f i
  | none => false

/-- The `for i in range(num_slices)` loop body of `predict_volume`
(segmentation.py lines 238-260), recursing on the number of remaining
iterations `n` (so the current index is `depth - n`): check cancellation and
return `None`; otherwise run `predict` on slice `i`, write the mask into the
accumulator when its shape matches `(rows, cols)`, and leave the slice
all-zero when `predict` failed or the shape mismatched. -/
def pvLoop (seg : LungSegmenter) (vol : Volume3)
    (is_cancelled : Option (Nat → Bool)) :
    Nat → (Nat → Nat → Nat → ℕ) → Option (Nat → Nat → Nat → ℕ)
  | 0, acc => some acc
  | n + 1, acc =>
    let i := vol.depth - (n + 1)
    if cbVal is_cancelled i then none
    else
      let acc' : Nat → Nat → Nat → ℕ :=
        match seg.predict (some (vol.sliceAt i)) with
        | some mask =>
          if mask.rows = vol.rows ∧ mask.cols = vol.cols then
            fun z r c => if z = i then mask.pix r c else acc z r c
          else acc
        | none => acc
      pvLoop seg vol is_cancelled n acc'

/-- `LungSegmenter.predict_volume` (segmentation.py lines 209-266): `None`
without a model; otherwise `volume_mask = np.zeros_like(volume_hu)`, the
per-slice loop, `None` on cancellation, and on completion the mask volume
with exactly the input volume's shape (per-slice errors only set a logged
flag and never change the returned array). The `ndim != 3` guard is
unreachable for the typed 3-D volumes considered here. -/
def LungSegmenter.predict_volume (seg : LungSegmenter) (vol : Volume3)
    (is_cancelled : Option (Nat → Bool)) : Option Mask3 :=
  match seg.model with
  | none => none
  | some _ =>
    match pvLoop seg vol is_cancelled vol.depth (fun _ _ _ => 0) with
    | none => none
    | some pix => some ⟨vol.depth, vol.rows, vol.cols, pix⟩

/-- `LungSegmenter.cancel` (segmentation.py lines 268-270): sets the
`_is_cancelled` flag and nothing else. -/
def LungSegmenter.cancel (seg : LungSegmenter) : LungSegmenter :=
  { seg with _is_cancelled := true }

/-- The mask- and display-relevant state of a `ViewerPanel` instance
(viewer_panel.py): the current slice index, the loaded volume and current
slice, the transient single-slice mask (`self.segmentation_mask`), the
full-volume mask (`self.full_segmentation_mask_volume`), the state of the
"show segmentation" checkbox, and what the `mask_item` overlay currently
renders (its `setVisible` flag and the image set on it, `none` after
`clear()`). Purely visual members (image item, labels, measurements,
buttons) that carry no mask state are not modelled. -/
structure ViewerPanel where
  current_slice_index : Nat
  current_volume_hu : Option Volume3
  current_pixel_data_hu : Option PyArray
  segmentation_mask : Option Mask2
  full_segmentation_mask_volume : Option Mask3
  checkbox_checked : Bool
  checkbox_enabled : Bool
  mask_item_visible : Bool
  mask_item : Option Mask2

/-- `ViewerPanel._update_mask_overlay` (viewer_panel.py lines 1272-1305):
the overlay shows a mask when (the full mask exists and the checkbox is
checked — indexing the full volume at the current slice, nothing when the
index is out of its range) or (a single-slice mask exists and no full mask
does — the checkbox is not consulted on this branch); in every other case
the overlay is cleared and hidden. -/
def ViewerPanel._update_mask_overlay (p : ViewerPanel) : ViewerPanel :=
  if (p.full_segmentation_mask_volume.isSome && p.checkbox_checked) ||
      (p.segmentation_mask.isSome && p.full_segmentation_mask_volume.isNone) then
    let mask_to_display : Option Mask2 :=
      if p.full_segmentation_mask_volume.isSome && p.checkbox_checked then
        match p.full_segmentation_mask_volume with
        | some mv =>
          if p.current_slice_index < mv.depth then
            some ⟨mv.rows, mv.cols, mv.pix p.current_slice_index⟩
          else none
        | none => none
      else if p.segmentation_mask.isSome && p.full_segmentation_mask_volume.isNone then
        p.segmentation_mask
      else none
    match mask_to_display with
    | some m => { p with mask_item := some m, mask_item_visible := true }
    | none => { p with mask_item := none, mask_item_visible := false }
  else
    { p with mask_item := none, mask_item_visible := false }

/-- `ViewerPanel._on_segment_toggle` (viewer_panel.py lines 1082-1086): the
checkbox `toggled` slot only refreshes the overlay. -/
def ViewerPanel._on_segment_toggle (p : ViewerPanel) : ViewerPanel :=
  ViewerPanel._update_mask_overlay p

/-- `QCheckBox.setChecked` on `segment_checkbox`: records the new checked
state and, when the state actually changed, Qt emits `toggled`, which is
connected to `_on_segment_toggle` (viewer_panel.py line 539). -/
def ViewerPanel.setChecked (p : ViewerPanel) (b : Bool) : ViewerPanel :=
  if p.checkbox_checked = b then p
  else ViewerPanel._on_segment_toggle { p with checkbox_checked := b }

/-- `ViewerPanel._update_segmentation_controls_state` (viewer_panel.py lines
1107-1127), restricted to the checkbox (the segment buttons carry no mask
state): the checkbox is enabled iff a full mask or a single-slice mask is
available, and when it is disabled its check mark is removed. -/
def ViewerPanel._update_segmentation_controls_state (p : ViewerPanel) : ViewerPanel :=
  let enabled := p.full_segmentation_mask_volume.isSome || p.segmentation_mask.isSome
  let p := { p with checkbox_enabled := enabled }
  if !enabled then ViewerPanel.setChecked p false else p

/-- `ViewerPanel._update_slice_display` (viewer_panel.py lines 1004-1064),
mask-state fragment: guard on a loaded volume and an in-range index; record
the new slice index and its pixel data; when a full mask exists take the
current slice of it as `segmentation_mask` (or `None` out of range), and
otherwise clear the transient single-slice mask whenever the slice actually
changed; finally refresh the overlay. Measurement display, windowing and
label updates carry no mask state and are omitted. -/
def ViewerPanel._update_slice_display (p : ViewerPanel) (slice_index : Nat) :
    ViewerPanel :=
  match p.current_volume_hu with
  | none => p
  | some vol =>
    if slice_index < vol.depth then
      let is_new_slice := slice_index ≠ p.current_slice_index
      let p := { p with
        current_slice_index := slice_index,
        current_pixel_data_hu := some (vol.sliceAt slice_index) }
      let p :=
        match p.full_segmentation_mask_volume with
        | some mv =>
          if slice_index < mv.depth then
            { p with segmentation_mask := some ⟨mv.rows, mv.cols, mv.pix slice_index⟩ }
          else
            { p with segmentation_mask := none }
        | none =>
          if is_new_slice then { p with segmentation_mask := none } else p
      ViewerPanel._update_mask_overlay p
    else p

/-- `ViewerPanel._on_slice_changed` (viewer_panel.py lines 1067-1070):
navigation slot; no-op when the slider lands on the current index. -/
def ViewerPanel._on_slice_changed (p : ViewerPanel) (value : Nat) : ViewerPanel :=
  if value = p.current_slice_index then p
  else ViewerPanel._update_slice_display p value

/-- `ViewerPanel._on_full_segmentation_finished` (viewer_panel.py lines
1143-1185): with a non-`None` result and no cancellation, install the mask
volume, refresh the current slice display and check the checkbox; otherwise
(cancelled or `None` result) null the full mask store, uncheck the checkbox
and hide the overlay. Both paths end by refreshing the control state.
`worker_cancelled` stands for `self.segmentation_worker.is_cancelled`. -/
def ViewerPanel._on_full_segmentation_finished (p : ViewerPanel)
    (result_volume : Option Mask3) (worker_cancelled : Bool) : ViewerPanel :=
  if result_volume.isSome && !worker_cancelled then
    match result_volume with
    | some mv =>
      let p := { p with full_segmentation_mask_volume := some mv }
      let p := ViewerPanel._update_slice_display p p.current_slice_index
      let p := ViewerPanel.setChecked p true
      ViewerPanel._update_segmentation_controls_state p
    | none => p
  else
    let p := { p with full_segmentation_mask_volume := none }
    let p := ViewerPanel.setChecked p false
    let p := ViewerPanel._update_mask_overlay p
    ViewerPanel._update_segmentation_controls_state p

/-- `ViewerPanel.run_single_slice_segmentation` (viewer_panel.py lines
280-327): after the prerequisite guard (segmenter with a model, loaded
volume), drop any full-volume mask, run `predict` on the current slice;
on success store the single-slice mask and check the checkbox, on failure
clear it and uncheck; either way refresh the overlay and the controls. -/
def ViewerPanel.run_single_slice_segmentation (p : ViewerPanel)
    (segmenter : LungSegmenter) : ViewerPanel :=
  if segmenter.model.isNone || p.current_volume_hu.isNone then p
  else
    let p := { p with full_segmentation_mask_volume := none }
    match segmenter.predict p.current_pixel_data_hu with
    | some single_mask =>
      let p := { p with segmentation_mask := some single_mask }
      let p := ViewerPanel.setChecked p true
      let p := ViewerPanel._update_mask_overlay p
      ViewerPanel._update_segmentation_controls_state p
    | none =>
      let p := { p with segmentation_mask := none }
      let p := ViewerPanel.setChecked p false
      let p := ViewerPanel._update_mask_overlay p
      ViewerPanel._update_segmentation_controls_state p

/-- A `QPointF` in image-pixel coordinates: `x` is the column axis and `y`
the row axis (see `_on_mouse_moved`, which builds `QPointF(x, y)` from the
column/row pixel indices). -/
structure QPointF where
  x : ℚ
  y : ℚ

/-- The squared-distance part of `ViewerPanel._calculate_distance_mm`
(viewer_panel.py lines 1623-1651): pixel deltas, per-axis conversion with
`(row_spacing, col_spacing) = self.pixel_spacing` (so `x` pairs with the
column spacing and `y` with the row spacing), then the sum of squares fed
to `math.sqrt`. -/
def _calculate_distance_mm_sq (pixel_spacing : ℚ × ℚ) (point1 point2 : QPointF) : ℚ :=
  let delta_x_pixels := point2.x - point1.x
  let delta_y_pixels := point2.y - point1.y
  let row_spacing := pixel_spacing.1
  let col_spacing := pixel_spacing.2
  let delta_x_mm := delta_x_pixels * col_spacing
  let delta_y_mm := delta_y_pixels * row_spacing
  delta_x_mm ^ 2 + delta_y_mm ^ 2

/-- `ViewerPanel._calculate_distance_mm`: `math.sqrt` of the sum of squared
per-axis millimetre deltas. -/
noncomputable def _calculate_distance_mm (pixel_spacing : ℚ × ℚ)
    (point1 point2 : QPointF) : ℝ :=
  Real.sqrt ((_calculate_distance_mm_sq pixel_spacing point1 point2 : ℚ) : ℝ)

/-- A slice `z` is written as all-zero by the `predict_volume` loop: either
`predict` returned `None` for it, or the returned mask's shape disagreed
with `(rows, cols)` (both cases leave `volume_mask[z]` untouched). -/
def sliceSkipped (seg : LungSegmenter) (vol : Volume3) (z : Nat) : Prop :=
  match seg.predict (some (vol.sliceAt z)) with
  | none => True
  | some mask => ¬(mask.rows = vol.rows ∧ mask.cols = vol.cols)

/-- Whether a full mask volume exists and the current slice index falls
inside its depth (the condition under which `_update_mask_overlay` can
actually pull a slice out of the full mask). -/
def ViewerPanel.fullMaskSliceInRange (p : ViewerPanel) : Bool :=
  match p.full_segmentation_mask_volume with
  | some mv => decide (p.current_slice_index < mv.depth)
  | none => false

/-! Concrete fixtures used by the witness and counterexample theorems. -/

/-- A model whose forward pass always succeeds with constant logit 1. -/
def mW : TorchModel := ⟨fun _ => some fun _ _ => 1⟩

/-- A model whose forward pass always raises (models a runtime inference
failure on every slice). -/
def mFail : TorchModel := ⟨fun _ => none⟩

/-- A segmenter with the constant model loaded. -/
def segW : LungSegmenter := ⟨some mW, none, false⟩

/-- A segmenter whose model fails on every slice. -/
def segFail : LungSegmenter := ⟨some mFail, none, false⟩

/-- A segmenter with no model loaded. -/
def segNone : LungSegmenter := ⟨none, none, false⟩

/-- A 9-slice volume of 1x1 slices, all intensities 0. -/
def volW : Volume3 := ⟨9, 1, 1, fun _ _ _ => 0⟩

/-- A 2-slice volume of 1x1 slices. -/
def volSmall : Volume3 := ⟨2, 1, 1, fun _ _ _ => 0⟩

/-- A concrete 1x1 single-slice mask. -/
def mkW : Mask2 := ⟨1, 1, fun _ _ => 1⟩

/-- A concrete 3-slice full mask volume. -/
def mvW : Mask3 := ⟨3, 1, 1, fun _ _ _ => 1⟩

/-- A concrete 2-D input slice of shape (1, 1). -/
def aW : PyArray := ⟨[1, 1], fun _ _ => 0⟩

/-- The concrete mask `segW.predict` returns on `aW`. -/
def maskW : Mask2 :=
  ⟨1, 1, resizeNearest (fun _ _ => if (0 : ℚ) < 1 then 1 else 0) IMG_SIZE IMG_SIZE 1 1⟩

/-- A concrete 1-D (hence invalid) input array. -/
def aBad : PyArray := ⟨[2], fun _ _ => 0⟩

/-- A viewer sitting on slice 7 of the 9-slice volume, no masks yet. -/
def panelW : ViewerPanel :=
  ⟨7, some volW, some (volW.sliceAt 7), none, none, false, false, false, none⟩

/-- A viewer on slice 7 of the 9-slice volume holding a single-slice mask
(the state right after a successful single-slice segmentation). -/
def panelSingle : ViewerPanel :=
  ⟨7, some volW, some (volW.sliceAt 7), some mkW, none, true, true, true, some mkW⟩

/-- A viewer holding a single-slice mask with the visibility checkbox OFF. -/
def panelSingleUnchecked : ViewerPanel :=
  ⟨0, some volW, some (volW.sliceAt 0), some mkW, none, false, true, false, none⟩

/-- A viewer on slice 1 holding a full mask volume, checkbox ON. -/
def panelFull : ViewerPanel :=
  ⟨1, some volW, some (volW.sliceAt 1), none, some mvW, true, true, true, some mkW⟩

/-! ## Helper lemmas -/

/-- If the cancellation callback is true at some not-yet-processed index,
the `predict_volume` loop returns `None`. -/
theorem pvLoop_cancelled (seg : LungSegmenter) (vol : Volume3)
    (cb : Option (Nat → Bool)) :
    ∀ n, n ≤ vol.depth →
      (∃ i, vol.depth - n ≤ i ∧ i < vol.depth ∧ cbVal cb i = true) →
      ∀ acc, pvLoop seg vol cb n acc = none := by
  intro n
  induction n with
  | zero =>
    intro _ h acc
    obtain ⟨i, h1, h2, _⟩ := h
    omega
  | succ n ih =>
    intro hle h acc
    obtain ⟨i, h1, h2, h3⟩ := h
    by_cases hc : cbVal cb (vol.depth - (n + 1)) = true
    · simp [pvLoop, hc]
    · have heq : cbVal cb (vol.depth - (n + 1)) = false := by
        cases hval : cbVal cb (vol.depth - (n + 1)) with
        | false => rfl
        | true => exact absurd hval hc
      have hi : vol.depth - n ≤ i := by
        rcases Nat.lt_or_ge i (vol.depth - n) with hlt | hge
        · exfalso
          have hieq : i = vol.depth - (n + 1) := by omega
          rw [hieq] at h3
          exact hc h3
        · exact hge
      simp only [pvLoop, heq, Bool.false_eq_true, if_false]
      exact ih (by omega) ⟨i, hi, h2, h3⟩ _

/-- If the cancellation callback is false at every remaining index, the
`predict_volume` loop completes with a mask-pixel function that agrees with
its accumulator on every slice it does not write: slices outside the
remaining range, and slices whose per-slice prediction was skipped. -/
theorem pvLoop_completes (seg : LungSegmenter) (vol : Volume3)
    (cb : Option (Nat → Bool)) :
    ∀ n, n ≤ vol.depth →
      (∀ i, vol.depth - n ≤ i → i < vol.depth → cbVal cb i = false) →
      ∀ acc, ∃ g, pvLoop seg vol cb n acc = some g ∧
        ∀ z, (z < vol.depth - n ∨ vol.depth ≤ z ∨ sliceSkipped seg vol z) →
          ∀ r c, g z r c = acc z r c := by
  intro n
  induction n with
  | zero =>
    intro _ _ acc
    exact ⟨acc, rfl, fun z _ r c => rfl⟩
  | succ n ih =>
    intro hle hnc acc
    have hi : vol.depth - (n + 1) < vol.depth := by omega
    have heq : cbVal cb (vol.depth - (n + 1)) = false :=
      hnc _ (Nat.le_refl _) hi
    rcases hp : seg.predict (some (vol.sliceAt (vol.depth - (n + 1)))) with _ | mask
    · obtain ⟨g, hg, hprop⟩ :=
        ih (by omega) (fun i ha hb => hnc i (by omega) hb) acc
      refine ⟨g, ?_, ?_⟩
      · simp only [pvLoop, heq, Bool.false_eq_true, if_false, hp]
        exact hg
      · intro z hz r c
        refine hprop z ?_ r c
        rcases hz with h | h | h
        · exact Or.inl (by omega)
        · exact Or.inr (Or.inl h)
        · exact Or.inr (Or.inr h)
    · by_cases hsh : mask.rows = vol.rows ∧ mask.cols = vol.cols
      · obtain ⟨g, hg, hprop⟩ :=
          ih (by omega) (fun i ha hb => hnc i (by omega) hb)
            (fun z r c =>
              if z = vol.depth - (n + 1) then mask.pix r c else acc z r c)
        refine ⟨g, ?_, ?_⟩
        · simp only [pvLoop, heq, Bool.false_eq_true, if_false, hp, if_pos hsh]
          exact hg
        · intro z hz r c
          have hzc : z < vol.depth - n ∨ vol.depth ≤ z ∨ sliceSkipped seg vol z := by
            rcases hz with h | h | h
            · exact Or.inl (by omega)
            · exact Or.inr (Or.inl h)
            · exact Or.inr (Or.inr h)
          have hzne : z ≠ vol.depth - (n + 1) := by
            intro hzeq
            rcases hz with h | h | h
            · omega
            · omega
            · rw [hzeq] at h
              simp only [sliceSkipped, hp] at h
              exact h hsh
          have hstep := hprop z hzc r c
          rw [hstep]
          simp [hzne]
      · obtain ⟨g, hg, hprop⟩ :=
          ih (by omega) (fun i ha hb => hnc i (by omega) hb) acc
        refine ⟨g, ?_, ?_⟩
        · simp only [pvLoop, heq, Bool.false_eq_true, if_false, hp, if_neg hsh]
          exact hg
        · intro z hz r c
          refine hprop z ?_ r c
          rcases hz with h | h | h
          · exact Or.inl (by omega)
          · exact Or.inr (Or.inl h)
          · exact Or.inr (Or.inr h)

/-- `_update_mask_overlay` only writes the overlay item and its visibility
flag; every other field of the panel is untouched. -/
theorem update_mask_overlay_fields (p : ViewerPanel) :
    (p._update_mask_overlay).segmentation_mask = p.segmentation_mask ∧
    (p._update_mask_overlay).full_segmentation_mask_volume =
      p.full_segmentation_mask_volume ∧
    (p._update_mask_overlay).current_slice_index = p.current_slice_index ∧
    (p._update_mask_overlay).current_volume_hu = p.current_volume_hu ∧
    (p._update_mask_overlay).current_pixel_data_hu = p.current_pixel_data_hu ∧
    (p._update_mask_overlay).checkbox_checked = p.checkbox_checked ∧
    (p._update_mask_overlay).checkbox_enabled = p.checkbox_enabled := by
  simp only [ViewerPanel._update_mask_overlay]
  repeat' split
  all_goals exact ⟨rfl, rfl, rfl, rfl, rfl, rfl, rfl⟩

/-- `setChecked` only writes the checkbox state and the overlay fields. -/
theorem setChecked_fields (p : ViewerPanel) (b : Bool) :
    (p.setChecked b).segmentation_mask = p.segmentation_mask ∧
    (p.setChecked b).full_segmentation_mask_volume =
      p.full_segmentation_mask_volume ∧
    (p.setChecked b).current_slice_index = p.current_slice_index ∧
    (p.setChecked b).current_volume_hu = p.current_volume_hu := by
  simp only [ViewerPanel.setChecked, ViewerPanel._on_segment_toggle]
  split
  · exact ⟨rfl, rfl, rfl, rfl⟩
  · have h := update_mask_overlay_fields { p with checkbox_checked := b }
    exact ⟨h.1, h.2.1, h.2.2.1, h.2.2.2.1⟩

/-- `_update_segmentation_controls_state` never changes which masks are
stored, the slice index, or the loaded volume. -/
theorem controls_state_fields (p : ViewerPanel) :
    (p._update_segmentation_controls_state).segmentation_mask =
      p.segmentation_mask ∧
    (p._update_segmentation_controls_state).full_segmentation_mask_volume =
      p.full_segmentation_mask_volume ∧
    (p._update_segmentation_controls_state).current_slice_index =
      p.current_slice_index ∧
    (p._update_segmentation_controls_state).current_volume_hu =
      p.current_volume_hu := by
  simp only [ViewerPanel._update_segmentation_controls_state]
  split
  · have h := setChecked_fields
      { p with checkbox_enabled :=
          p.full_segmentation_mask_volume.isSome || p.segmentation_mask.isSome }
      false
    exact ⟨h.1, h.2.1, h.2.2.1, h.2.2.2⟩
  · exact ⟨rfl, rfl, rfl, rfl⟩

/-- The concrete measurement of the spec scenario: spacing (1.0, 0.5),
points (10,10) and (10,20), evaluated on the code's formula, is 10 mm. -/
theorem distance_ten :
    _calculate_distance_mm (1, 1/2) ⟨10, 10⟩ ⟨10, 20⟩ = 10 := by
  unfold _calculate_distance_mm
  have h : _calculate_distance_mm_sq (1, 1/2) ⟨10, 10⟩ ⟨10, 20⟩ = 100 := by
    norm_num [_calculate_distance_mm_sq]
  rw [h]
  have h2 : ((100 : ℚ) : ℝ) = (10 : ℝ) ^ 2 := by norm_num
  rw [h2, Real.sqrt_sq (by norm_num : (0 : ℝ) ≤ 10)]

/-- When `_on_full_segmentation_finished` takes its failure/cancellation
branch (`None` result or a cancelled worker), the full mask store ends up
`None`: the branch nulls it and the subsequent checkbox, overlay and
control-state updates never write it. -/
theorem finished_else_full_none (p : ViewerPanel) (r : Option Mask3) (wc : Bool)
    (h : (r.isSome && !wc) = false) :
    (p._on_full_segmentation_finished r wc).full_segmentation_mask_volume = none := by
  simp only [ViewerPanel._on_full_segmentation_finished, h, Bool.false_eq_true, if_false]
  have h1 := setChecked_fields { p with full_segmentation_mask_volume := none } false
  have h2 := update_mask_overlay_fields
    (ViewerPanel.setChecked { p with full_segmentation_mask_volume := none } false)
  have h3 := controls_state_fields
    (ViewerPanel._update_mask_overlay
      (ViewerPanel.setChecked { p with full_segmentation_mask_volume := none } false))
  rw [h3.2.1, h2.2.1, h1.2.1]

/-- `predict` reads nothing of the segmenter besides its `model` field. -/
theorem predict_only_model (mo : Option TorchModel) (mp mp' : Option String)
    (fl fl' : Bool) (s? : Option PyArray) :
    LungSegmenter.predict ⟨mo, mp, fl⟩ s? = LungSegmenter.predict ⟨mo, mp', fl'⟩ s? := rfl

/-- The `predict_volume` loop reads nothing of the segmenter besides its
`model` field (in particular it never reads `_is_cancelled`). -/
theorem pvLoop_only_model (mo : Option TorchModel) (mp mp' : Option String)
    (fl fl' : Bool) (vol : Volume3) (cb : Option (Nat → Bool)) :
    ∀ n acc, pvLoop ⟨mo, mp, fl⟩ vol cb n acc = pvLoop ⟨mo, mp', fl'⟩ vol cb n acc := by
  intro n
  induction n with
  | zero => intro acc; rfl
  | succ n ih =>
    intro acc
    simp only [pvLoop]
    rw [predict_only_model mo mp mp' fl fl']
    split
    · rfl
    · exact ih _

/-- `predict_volume` reads nothing of the segmenter besides its `model`. -/
theorem predict_volume_only_model (mo : Option TorchModel) (mp mp' : Option String)
    (fl fl' : Bool) (vol : Volume3) (cb : Option (Nat → Bool)) :
    LungSegmenter.predict_volume ⟨mo, mp, fl⟩ vol cb =
      LungSegmenter.predict_volume ⟨mo, mp', fl'⟩ vol cb := by
  cases mo with
  | none => rfl
  | some m =>
    simp only [LungSegmenter.predict_volume]
    rw [pvLoop_only_model]

/-! ## Claim theorems -/

/-- C1: cancelling a volumetric segmentation run after fewer than Z slices
(the cancellation predicate becomes true at some unprocessed slice index)
makes `predict_volume` return `None` rather than a partially filled mask
volume, and the viewer's `_on_full_segmentation_finished` handler leaves the
full mask store empty on a `None` result or a cancelled worker, so no
partial mask volume is ever installed as authoritative. -/
theorem C1_cancellation_discards_work (seg : LungSegmenter) (vol : Volume3)
    (f : Nat → Bool) (h : ∃ i, i < vol.depth ∧ f i = true) :
    seg.predict_volume vol (some f) = none ∧
    (∀ (p : ViewerPanel) (wc : Bool),
      (p._on_full_segmentation_finished none wc).full_segmentation_mask_volume
        = none) ∧
    (∀ (p : ViewerPanel) (r : Option Mask3),
      (p._on_full_segmentation_finished r true).full_segmentation_mask_volume
        = none) := by
  refine ⟨?_, ?_, ?_⟩
  · obtain ⟨i, hlt, hf⟩ := h
    cases hm : seg.model with
    | none => simp [LungSegmenter.predict_volume, hm]
    | some m =>
      have hl := pvLoop_cancelled seg vol (some f) vol.depth (Nat.le_refl _)
        ⟨i, by omega, hlt, hf⟩ (fun _ _ _ => 0)
      simp [LungSegmenter.predict_volume, hm, hl]
  · intro p wc
    exact finished_else_full_none p none wc (by simp)
  · intro p r
    exact finished_else_full_none p r true (by simp)

/-- C2: a run of `predict_volume` that returns a mask volume returns one of
exactly the input volume's shape, and when no cancellation occurs the run
completes with such a volume even when individual slices fail — a slice
whose `predict` returned `None` is left all-zero and the remaining slices
are still processed. -/
theorem C2_volume_shape_and_slice_failures (seg : LungSegmenter)
    (m : TorchModel) (vol : Volume3) (cb : Option (Nat → Bool))
    (hm : seg.model = some m)
    (hnc : ∀ i, i < vol.depth → cbVal cb i = false) :
    (∀ (cb2 : Option (Nat → Bool)) (mv : Mask3),
      seg.predict_volume vol cb2 = some mv →
      mv.depth = vol.depth ∧ mv.rows = vol.rows ∧ mv.cols = vol.cols) ∧
    (∃ mv, seg.predict_volume vol cb = some mv ∧
      mv.depth = vol.depth ∧ mv.rows = vol.rows ∧ mv.cols = vol.cols ∧
      ∀ i, i < vol.depth → seg.predict (some (vol.sliceAt i)) = none →
        ∀ r c, mv.pix i r c = 0) := by
  constructor
  · intro cb2 mv hmv
    cases hm2 : seg.model with
    | none => simp [LungSegmenter.predict_volume, hm2] at hmv
    | some m2 =>
      simp only [LungSegmenter.predict_volume, hm2] at hmv
      cases hpl : pvLoop seg vol cb2 vol.depth (fun _ _ _ => 0) with
      | none => rw [hpl] at hmv; cases hmv
      | some g =>
        rw [hpl] at hmv
        cases hmv
        exact ⟨rfl, rfl, rfl⟩
  · obtain ⟨g, hg, hprop⟩ := pvLoop_completes seg vol cb vol.depth
      (Nat.le_refl _) (fun i _ h2 => hnc i h2) (fun _ _ _ => 0)
    refine ⟨⟨vol.depth, vol.rows, vol.cols, g⟩, ?_, rfl, rfl, rfl, ?_⟩
    · simp [LungSegmenter.predict_volume, hm, hg]
    · intro i hi hpred r c
      have hskip : sliceSkipped seg vol i := by
        simp [sliceSkipped, hpred]
      exact hprop i (Or.inr (Or.inr hskip)) r c

/-- C10: `cancel()` only sets the segmenter's `_is_cancelled` flag, and
`predict_volume` never reads that flag — its result is independent of the
flag's value, and a call made without an `is_cancelled` callback processes
all Z slices and returns a full-shape mask volume even after `cancel()`. -/
theorem C10_cancel_flag_not_read (seg : LungSegmenter) (m : TorchModel)
    (vol : Volume3) (b : Bool) (hm : seg.model = some m) :
    (seg.cancel)._is_cancelled = true ∧
    LungSegmenter.predict_volume { seg with _is_cancelled := b } vol none =
      seg.predict_volume vol none ∧
    (∃ mv, (seg.cancel).predict_volume vol none = some mv ∧
      mv.depth = vol.depth ∧ mv.rows = vol.rows ∧ mv.cols = vol.cols) := by
  obtain ⟨mo, mp, fl⟩ := seg
  have hmo : mo = some m := hm
  subst hmo
  refine ⟨rfl, predict_volume_only_model (some m) mp mp b fl vol none, ?_⟩
  show ∃ mv, LungSegmenter.predict_volume ⟨some m, mp, true⟩ vol none = some mv ∧
    mv.depth = vol.depth ∧ mv.rows = vol.rows ∧ mv.cols = vol.cols
  obtain ⟨g, hg, _⟩ := pvLoop_completes ⟨some m, mp, true⟩ vol none vol.depth
    (Nat.le_refl _) (fun i _ _ => rfl) (fun _ _ _ => 0)
  refine ⟨⟨vol.depth, vol.rows, vol.cols, g⟩, ?_, rfl, rfl, rfl⟩
  simp [LungSegmenter.predict_volume, hg]

/-- Witness for C1 at a concrete cancelled run: a 2-slice volume with a
callback that is already true at slice 0. -/
theorem C1_witness :
    (∃ i, i < volSmall.depth ∧ (fun _ : Nat => true) i = true) ∧
    (segW.predict_volume volSmall (some fun _ => true) = none ∧
      (∀ (p : ViewerPanel) (wc : Bool),
        (p._on_full_segmentation_finished none wc).full_segmentation_mask_volume
          = none) ∧
      (∀ (p : ViewerPanel) (r : Option Mask3),
        (p._on_full_segmentation_finished r true).full_segmentation_mask_volume
          = none)) :=
  ⟨⟨0, by decide, rfl⟩,
    C1_cancellation_discards_work segW volSmall (fun _ => true) ⟨0, by decide, rfl⟩⟩

/-- Witness for C2 at a concrete run: a 2-slice volume under a model whose
forward pass fails on every slice, with no cancellation callback. -/
theorem C2_witness :
    segFail.model = some mFail ∧
    (∀ i, i < volSmall.depth → cbVal none i = false) ∧
    ((∀ (cb2 : Option (Nat → Bool)) (mv : Mask3),
      segFail.predict_volume volSmall cb2 = some mv →
      mv.depth = volSmall.depth ∧ mv.rows = volSmall.rows ∧
        mv.cols = volSmall.cols) ∧
    (∃ mv, segFail.predict_volume volSmall none = some mv ∧
      mv.depth = volSmall.depth ∧ mv.rows = volSmall.rows ∧
      mv.cols = volSmall.cols ∧
      ∀ i, i < volSmall.depth →
        segFail.predict (some (volSmall.sliceAt i)) = none →
        ∀ r c, mv.pix i r c = 0)) :=
  ⟨rfl, fun _ _ => rfl,
    C2_volume_shape_and_slice_failures segFail mFail volSmall none rfl
      (fun _ _ => rfl)⟩

/-- Witness for C10 at a concrete segmenter and 2-slice volume. -/
theorem C10_witness :
    segW.model = some mW ∧
    ((segW.cancel)._is_cancelled = true ∧
     LungSegmenter.predict_volume { segW with _is_cancelled := true } volSmall none =
       segW.predict_volume volSmall none ∧
     (∃ mv, (segW.cancel).predict_volume volSmall none = some mv ∧
       mv.depth = volSmall.depth ∧ mv.rows = volSmall.rows ∧
       mv.cols = volSmall.cols)) :=
  ⟨rfl, C10_cancel_flag_not_read segW mW volSmall true rfl⟩

/-- Navigating `_update_slice_display` to an in-range slice different from
the current one, with no full mask volume, clears the transient single-slice
mask and hides the overlay, whatever the single-slice mask was before. -/
theorem update_slice_display_new_slice (p : ViewerPanel) (vol : Volume3)
    (j : Nat) (hvol : p.current_volume_hu = some vol)
    (hfull : p.full_segmentation_mask_volume = none)
    (hne : j ≠ p.current_slice_index) (hlt : j < vol.depth) :
    (p._update_slice_display j).segmentation_mask = none ∧
    (p._update_slice_display j).mask_item_visible = false ∧
    (p._update_slice_display j).mask_item = none ∧
    (p._update_slice_display j).full_segmentation_mask_volume = none ∧
    (p._update_slice_display j).current_slice_index = j ∧
    (p._update_slice_display j).current_volume_hu = some vol := by
  simp only [ViewerPanel._update_slice_display, hvol]
  rw [if_pos hlt, hfull]
  rw [if_pos hne]
  simp [ViewerPanel._update_mask_overlay, hfull]

/-- C3: from a state with a single-slice mask bound to the current slice and
no full mask volume, navigating to a different in-range slice clears the
stored single-slice mask and leaves no mask overlay shown, with no explicit
clear-mask action. -/
theorem C3_navigation_clears_single_mask (p : ViewerPanel) (vol : Volume3)
    (mk : Mask2) (j : Nat) (hvol : p.current_volume_hu = some vol)
    (hsingle : p.segmentation_mask = some mk)
    (hfull : p.full_segmentation_mask_volume = none)
    (hne : j ≠ p.current_slice_index) (hlt : j < vol.depth) :
    (p._on_slice_changed j).segmentation_mask = none ∧
    (p._on_slice_changed j).mask_item_visible = false ∧
    (p._on_slice_changed j).mask_item = none := by
  have hoc : p._on_slice_changed j = p._update_slice_display j := by
    simp only [ViewerPanel._on_slice_changed]
    rw [if_neg hne]
  have hstep := update_slice_display_new_slice p vol j hvol hfull hne hlt
  rw [hoc]
  exact ⟨hstep.1, hstep.2.1, hstep.2.2.1⟩

/-- Witness for C3 at a concrete state: slice 7 of the 9-slice volume with
a single-slice mask, navigating to slice 8. -/
theorem C3_witness :
    panelSingle.current_volume_hu = some volW ∧
    panelSingle.segmentation_mask = some mkW ∧
    panelSingle.full_segmentation_mask_volume = none ∧
    8 ≠ panelSingle.current_slice_index ∧ 8 < volW.depth ∧
    ((panelSingle._on_slice_changed 8).segmentation_mask = none ∧
     (panelSingle._on_slice_changed 8).mask_item_visible = false ∧
     (panelSingle._on_slice_changed 8).mask_item = none) :=
  ⟨rfl, rfl, rfl, by decide, by decide,
    C3_navigation_clears_single_mask panelSingle volW mkW 8 rfl rfl rfl
      (by decide) (by decide)⟩

/-- C4 counterexample: run a successful single-slice segmentation on
slice 7 of a 9-slice series with no full mask (the overlay then shows the
mask), navigate to slice 8 (overlay hidden), and navigate back to slice 7 —
contrary to the claim, the overlay does NOT reappear: the single-slice mask
was discarded on the first navigation, so the state back on slice 7 holds no
mask and shows no overlay. -/
theorem C4_counterexample :
    ((panelW.run_single_slice_segmentation segW).segmentation_mask).isSome = true ∧
    (panelW.run_single_slice_segmentation segW).mask_item_visible = true ∧
    (((panelW.run_single_slice_segmentation segW)._on_slice_changed 8)).mask_item_visible = false ∧
    ((((panelW.run_single_slice_segmentation segW)._on_slice_changed 8))._on_slice_changed 7).segmentation_mask = none ∧
    ((((panelW.run_single_slice_segmentation segW)._on_slice_changed 8))._on_slice_changed 7).mask_item_visible = false ∧
    ((((panelW.run_single_slice_segmentation segW)._on_slice_changed 8))._on_slice_changed 7).mask_item = none :=
  ⟨rfl, rfl, rfl, rfl, rfl, rfl⟩

/-- C4 (amended): after a successful single-slice segmentation on slice k
with no full-volume mask, navigating to a different slice j shows no mask
overlay, and navigating back to slice k still shows no overlay: the
single-slice mask is discarded on navigating away and is not restored (it
would have to be recomputed). -/
theorem C4_single_mask_discarded (p : ViewerPanel) (vol : Volume3)
    (mk : Mask2) (j : Nat) (hvol : p.current_volume_hu = some vol)
    (hsingle : p.segmentation_mask = some mk)
    (hfull : p.full_segmentation_mask_volume = none)
    (hne : j ≠ p.current_slice_index) (hlt : j < vol.depth)
    (hk : p.current_slice_index < vol.depth) :
    (p._on_slice_changed j).mask_item_visible = false ∧
    ((p._on_slice_changed j)._on_slice_changed p.current_slice_index).segmentation_mask = none ∧
    ((p._on_slice_changed j)._on_slice_changed p.current_slice_index).mask_item_visible = false ∧
    ((p._on_slice_changed j)._on_slice_changed p.current_slice_index).mask_item = none := by
  have hoc1 : p._on_slice_changed j = p._update_slice_display j := by
    simp only [ViewerPanel._on_slice_changed]
    rw [if_neg hne]
  obtain ⟨hq1, hq2, hq3, hq4, hq5, hq6⟩ :=
    update_slice_display_new_slice p vol j hvol hfull hne hlt
  have hne2 : p.current_slice_index ≠
      (p._update_slice_display j).current_slice_index := by
    rw [hq5]
    exact fun hh => hne hh.symm
  have hoc2 : (p._update_slice_display j)._on_slice_changed p.current_slice_index =
      (p._update_slice_display j)._update_slice_display p.current_slice_index := by
    simp only [ViewerPanel._on_slice_changed]
    rw [if_neg hne2]
  obtain ⟨hr1, hr2, hr3, _, _, _⟩ :=
    update_slice_display_new_slice (p._update_slice_display j) vol
      p.current_slice_index hq6 hq4 hne2 hk
  rw [hoc1, hoc2]
  exact ⟨hq2, hr1, hr2, hr3⟩

/-- Witness for the amended C4 at a concrete state: single-slice mask on
slice 7 of the 9-slice volume, navigate to 8 and back to 7. -/
theorem C4_witness :
    panelSingle.current_volume_hu = some volW ∧
    panelSingle.segmentation_mask = some mkW ∧
    panelSingle.full_segmentation_mask_volume = none ∧
    8 ≠ panelSingle.current_slice_index ∧ 8 < volW.depth ∧
    panelSingle.current_slice_index < volW.depth ∧
    ((panelSingle._on_slice_changed 8).mask_item_visible = false ∧
     ((panelSingle._on_slice_changed 8)._on_slice_changed
        panelSingle.current_slice_index).segmentation_mask = none ∧
     ((panelSingle._on_slice_changed 8)._on_slice_changed
        panelSingle.current_slice_index).mask_item_visible = false ∧
     ((panelSingle._on_slice_changed 8)._on_slice_changed
        panelSingle.current_slice_index).mask_item = none) :=
  ⟨rfl, rfl, rfl, by decide, by decide, by decide,
    C4_single_mask_discarded panelSingle volW mkW 8 rfl rfl rfl
      (by decide) (by decide) (by decide)⟩

/-- C5 counterexample: a state holding a single-slice mask with the
visibility toggle OFF still composites the mask onto the view — the
"composited iff toggle on" claim fails for single-slice masks. -/
theorem C5_counterexample :
    panelSingleUnchecked.checkbox_checked = false ∧
    panelSingleUnchecked.segmentation_mask = some mkW ∧
    (panelSingleUnchecked._update_mask_overlay).mask_item_visible = true :=
  ⟨rfl, rfl, rfl⟩

/-- C5 (amended): the visibility toggle gates only the full-volume mask —
after an overlay refresh the mask is drawn iff (the toggle is on and the
full mask volume exists with the current slice in range) or (a single-slice
mask exists and no full mask does, regardless of the toggle); and setting
the toggle never changes which masks are stored. -/
theorem C5_toggle_gates_full_mask_only (p : ViewerPanel) (b : Bool) :
    (p._update_mask_overlay).mask_item_visible =
      ((p.checkbox_checked && p.fullMaskSliceInRange) ||
        (p.segmentation_mask.isSome && p.full_segmentation_mask_volume.isNone)) ∧
    (p.setChecked b).segmentation_mask = p.segmentation_mask ∧
    (p.setChecked b).full_segmentation_mask_volume =
      p.full_segmentation_mask_volume := by
  refine ⟨?_, (setChecked_fields p b).1, (setChecked_fields p b).2.1⟩
  rcases hf : p.full_segmentation_mask_volume with _ | mv
  · rcases hs : p.segmentation_mask with _ | mk <;>
      cases hc : p.checkbox_checked <;>
        simp [ViewerPanel._update_mask_overlay, ViewerPanel.fullMaskSliceInRange,
          hf, hs, hc]
  · cases hc : p.checkbox_checked
    · simp [ViewerPanel._update_mask_overlay, ViewerPanel.fullMaskSliceInRange,
        hf, hc]
    · by_cases hd : p.current_slice_index < mv.depth <;>
        simp [ViewerPanel._update_mask_overlay, ViewerPanel.fullMaskSliceInRange,
          hf, hc, hd]

/-- C7: whenever `predict` succeeds on a 2-D slice of shape (h, w), the
returned mask has exactly shape (h, w) and every element is 0 or 1: the
logits are thresholded at 0 into a binary map at the fixed 256x256
resolution and resized back with nearest-neighbour interpolation, which only
copies existing (binary) values. -/
theorem C7_predict_shape_and_binary (seg : LungSegmenter) (a : PyArray)
    (h w : Nat) (mask : Mask2) (hshape : a.shape = [h, w])
    (hp : seg.predict (some a) = some mask) :
    mask.rows = h ∧ mask.cols = w ∧
    ∀ r, r < mask.rows → ∀ c, c < mask.cols →
      mask.pix r c = 0 ∨ mask.pix r c = 1 := by
  cases hm : seg.model with
  | none => simp [LungSegmenter.predict, hm] at hp
  | some model =>
    simp only [LungSegmenter.predict, hm, hshape] at hp
    cases hf : model.forward (LungSegmenter._preprocess_slice a.item h w) with
    | none => rw [hf] at hp; cases hp
    | some logits =>
      rw [hf] at hp
      injection hp with hmk
      subst hmk
      refine ⟨rfl, rfl, ?_⟩
      intro r _ c _
      simp only [resizeNearest]
      split
      · exact Or.inr rfl
      · exact Or.inl rfl

/-- Witness for C7 at a concrete model and 1x1 slice. -/
theorem C7_witness :
    aW.shape = [1, 1] ∧ segW.predict (some aW) = some maskW ∧
    (maskW.rows = 1 ∧ maskW.cols = 1 ∧
      ∀ r, r < maskW.rows → ∀ c, c < maskW.cols →
        maskW.pix r c = 0 ∨ maskW.pix r c = 1) :=
  ⟨rfl, rfl, C7_predict_shape_and_binary segW aW 1 1 maskW rfl rfl⟩

/-- C8: `predict` returns the `None` sentinel — and reaches no inference —
when no model is loaded, when the input slice is `None`, or when the input
is not 2-dimensional. The statement quantifies over every segmenter (hence
every forward function), so the result demonstrably does not depend on any
inference. -/
theorem C8_predict_guard_sentinels (seg : LungSegmenter) (mp : Option String)
    (fl : Bool) (s? : Option PyArray) (a : PyArray)
    (hnd : a.shape.length ≠ 2) :
    seg.predict none = none ∧
    LungSegmenter.predict ⟨none, mp, fl⟩ s? = none ∧
    seg.predict (some a) = none := by
  refine ⟨?_, ?_, ?_⟩
  · cases hm : seg.model with
    | none => simp [LungSegmenter.predict, hm]
    | some m => simp [LungSegmenter.predict, hm]
  · cases s? with
    | none => rfl
    | some a2 => rfl
  · cases hm : seg.model with
    | none => simp [LungSegmenter.predict, hm]
    | some m =>
      simp only [LungSegmenter.predict, hm]
      rcases ha : a.shape with _ | ⟨x, _ | ⟨y, _ | ⟨z, t⟩⟩⟩
      · rfl
      · rfl
      · exfalso
        rw [ha] at hnd
        simp at hnd
      · rfl

/-- Witness for C8 at a concrete model-less segmenter and a 1-D array. -/
theorem C8_witness :
    aBad.shape.length ≠ 2 ∧
    (segNone.predict none = none ∧
     LungSegmenter.predict ⟨none, none, false⟩ (some aW) = none ∧
     segNone.predict (some aBad) = none) :=
  ⟨by decide, C8_predict_guard_sentinels segNone none false (some aW) aBad (by decide)⟩

/-- C9: a failed `load_model` (missing file, import failure, or
deserialization error — all caught inside the method, which never raises)
returns `False` and leaves the model reference (and stored path) `None`; a
successful load returns `True` with the model reference set. -/
theorem C9_failed_load_nulls_model (seg : LungSegmenter) (path : String)
    (outcome : LoadOutcome) (m : TorchModel)
    (hfail : (seg.load_model path outcome).2 = false) :
    (seg.load_model path outcome).1.model = none ∧
    (seg.load_model path outcome).1.model_path = none ∧
    (seg.load_model path (LoadOutcome.ok m)).2 = true ∧
    (seg.load_model path (LoadOutcome.ok m)).1.model = some m := by
  cases outcome <;> simp_all [LungSegmenter.load_model]

/-- Witness for C9 at a concrete failing outcome (missing file). -/
theorem C9_witness :
    (segNone.load_model "lung_model.pth" LoadOutcome.fileMissing).2 = false ∧
    ((segNone.load_model "lung_model.pth" LoadOutcome.fileMissing).1.model = none ∧
     (segNone.load_model "lung_model.pth" LoadOutcome.fileMissing).1.model_path = none ∧
     (segNone.load_model "lung_model.pth" (LoadOutcome.ok mW)).2 = true ∧
     (segNone.load_model "lung_model.pth" (LoadOutcome.ok mW)).1.model = some mW) :=
  ⟨rfl, C9_failed_load_nulls_model segNone "lung_model.pth"
    LoadOutcome.fileMissing mW rfl⟩

/-- C6 counterexample: with pixel spacing (1.0, 0.5) the code's distance
from (10,10) to (10,20) is 10.0 mm, not the claimed 5.0 mm (the pixel delta
of 10 lies on the y axis, which pairs with the row spacing 1.0). -/
theorem C6_counterexample :
    _calculate_distance_mm (1, 1/2) ⟨10, 10⟩ ⟨10, 20⟩ ≠ 5 ∧
    _calculate_distance_mm (1, 1/2) ⟨10, 10⟩ ⟨10, 20⟩ = 10 := by
  constructor
  · rw [distance_ten]
    norm_num
  · exact distance_ten

/-- C6 (amended): the measurement distance equals
`sqrt(((x2-x1)*cs)^2 + ((y2-y1)*rs)^2)` for every pair of points and every
spacing `(rs, cs)`; in the concrete scenario with spacing (1.0, 0.5) the
distance from (10,10) to (10,20) is 10.0 mm. -/
theorem C6_measurement_distance (sp : ℚ × ℚ) (p1 p2 : QPointF) :
    _calculate_distance_mm sp p1 p2 =
      Real.sqrt ((((p2.x - p1.x) * sp.2 : ℚ) : ℝ) ^ 2 +
        (((p2.y - p1.y) * sp.1 : ℚ) : ℝ) ^ 2) ∧
    _calculate_distance_mm (1, 1/2) ⟨10, 10⟩ ⟨10, 20⟩ = 10 := by
  refine ⟨?_, distance_ten⟩
  unfold _calculate_distance_mm
  congr 1
  push_cast [_calculate_distance_mm_sq]
  ring

end PyLungViewer
